import Mathlib

/-!
Verification of the star-schema warehouse build of `src/load_data.py`, the
SQLite loader, and the monthly-revenue outlier detector shared between
`src/analyze_sales.py` and `dashboard/app.py`.

Modelling conventions.

* A pandas `Series` / `DataFrame` column is a `List` in row order.
* Python float arithmetic is modelled exactly: `ℚ` for every quantity the
  program obtains by field operations, and `ℝ` (`Real.sqrt`) where the code
  takes a square root (the standard deviation).
* A fallible pandas operation (`.astype(int)` over a column holding NaN,
  `dict[key]` on a missing key) is modelled with `Except PyError`.
* Python `dict`s built by `dict(zip(keys, vals))` over duplicate-free keys
  are association lists queried with `List.lookup`.
* Python `sorted` / `DataFrame.sort_values` over duplicate-free keys is
  `List.insertionSort` with the corresponding total order; on duplicate-free
  keys every comparison sort returns the same list, so the choice of
  algorithm is immaterial.
-/

namespace SalesDashboard

/-- Single pass of first-occurrence deduplication, carrying the set of
values already seen. -/
def dedupFirstAux {α : Type} [DecidableEq α] (seen : List α) : List α → List α
  | [] => []
  | x :: xs => if x ∈ seen then dedupFirstAux seen xs else x :: dedupFirstAux (x :: seen) xs

/-- First-occurrence deduplication: keeps the first occurrence of each value,
in encounter order — the semantics of `pandas.Series.unique`
(`load_data.py:16`), `Series.drop_duplicates` (`load_data.py:21`) and
`DataFrame.drop_duplicates` (`load_data.py:43`). -/
def dedupFirst {α : Type} [DecidableEq α] (l : List α) : List α :=
  dedupFirstAux [] l

/-- Surrogate-key assignment: `range(1, len(rows) + 1)` zipped against the
rows (`load_data.py:17` and `load_data.py:47`). -/
def withIds {α : Type} (l : List α) : List (ℕ × α) :=
  (List.range' 1 l.length).zip l

/-- Python string comparison: case-sensitive code-point comparison, i.e.
the lexicographic order on the underlying character list. (Core
`String.lt` agrees but runs through byte iterators the kernel cannot
evaluate, so the char-list order is used throughout.) -/
def strLE (a b : String) : Prop :=
  a.data ≤ b.data

def strLT (a b : String) : Prop :=
  a.data < b.data

instance : DecidableRel strLE := fun a b =>
  inferInstanceAs (Decidable (a.data ≤ b.data))

instance : DecidableRel strLT := fun a b =>
  inferInstanceAs (Decidable (a.data < b.data))

instance : IsTotal String strLE :=
  ⟨fun a b => le_total a.data b.data⟩

instance : IsTrans String strLE :=
  ⟨fun _ _ _ h₁ h₂ => le_trans h₁ h₂⟩

instance : IsAntisymm String strLE :=
  ⟨fun _ _ h₁ h₂ => String.ext (le_antisymm h₁ h₂)⟩

/-- Embedding of `build_dimension` (`load_data.py:15-17`): drop missing values
(`dropna`), deduplicate (`unique`), sort ascending (Python `sorted`:
case-sensitive code-point comparison on strings), and pair the sorted
distinct values with surrogate keys `1..N`. -/
def build_dimension (source : List (Option String)) : List (ℕ × String) :=
  withIds (List.insertionSort strLE (dedupFirst (source.filterMap id)))

theorem mem_dedupFirstAux {α : Type} [DecidableEq α] {l : List α} {a : α} :
    ∀ {seen : List α}, a ∈ dedupFirstAux seen l ↔ a ∈ l ∧ a ∉ seen := by
  induction l with
  | nil => simp [dedupFirstAux]
  | cons x xs ih =>
    intro seen
    by_cases hx : x ∈ seen
    · rw [dedupFirstAux, if_pos hx, ih]
      by_cases hax : a = x
      · subst hax
        simp [hx]
      · simp [hax]
    · rw [dedupFirstAux, if_neg hx, List.mem_cons, ih]
      by_cases hax : a = x
      · subst hax
        simp [hx]
      · simp [hax]

theorem mem_dedupFirst {α : Type} [DecidableEq α] {l : List α} {a : α} :
    a ∈ dedupFirst l ↔ a ∈ l := by
  rw [dedupFirst, mem_dedupFirstAux]
  simp

theorem nodup_dedupFirstAux {α : Type} [DecidableEq α] {l : List α} :
    ∀ {seen : List α}, (dedupFirstAux seen l).Nodup := by
  induction l with
  | nil =>
    intro seen
    rw [dedupFirstAux]
    exact List.nodup_nil
  | cons x xs ih =>
    intro seen
    by_cases hx : x ∈ seen
    · rw [dedupFirstAux, if_pos hx]
      exact ih
    · rw [dedupFirstAux, if_neg hx]
      refine List.nodup_cons.mpr ⟨fun hmem => ?_, ih⟩
      exact (mem_dedupFirstAux.mp hmem).2 (List.mem_cons_self x seen)

theorem nodup_dedupFirst {α : Type} [DecidableEq α] {l : List α} :
    (dedupFirst l).Nodup :=
  nodup_dedupFirstAux

theorem dedupFirst_perm_dedup {α : Type} [DecidableEq α] (l : List α) :
    List.Perm (dedupFirst l) l.dedup := by
  refine (List.perm_ext_iff_of_nodup nodup_dedupFirst l.nodup_dedup).mpr fun a => ?_
  simp [mem_dedupFirst, List.mem_dedup]

theorem dedupFirst_perm_of_perm {α : Type} [DecidableEq α] {l₁ l₂ : List α}
    (h : List.Perm l₁ l₂) : List.Perm (dedupFirst l₁) (dedupFirst l₂) := by
  refine (List.perm_ext_iff_of_nodup nodup_dedupFirst nodup_dedupFirst).mpr fun a => ?_
  simp [mem_dedupFirst, h.mem_iff]

theorem length_dedupFirst_eq_length_dedup {α : Type} [DecidableEq α] (l : List α) :
    (dedupFirst l).length = l.dedup.length :=
  (dedupFirst_perm_dedup l).length_eq

/-- Two permutation-equal inputs sort to the same list under a total,
transitive, antisymmetric order: the sorted-then-enumerate surrogate
assignment is insensitive to the encounter order of the raw rows. -/
theorem insertionSort_eq_of_perm {α : Type} {r : α → α → Prop} [DecidableRel r]
    [IsTotal α r] [IsTrans α r] [IsAntisymm α r] {l₁ l₂ : List α} (h : List.Perm l₁ l₂) :
    List.insertionSort r l₁ = List.insertionSort r l₂ :=
  List.eq_of_perm_of_sorted
    ((List.perm_insertionSort r l₁).trans (h.trans (List.perm_insertionSort r l₂).symm))
    (List.sorted_insertionSort r l₁) (List.sorted_insertionSort r l₂)

theorem map_fst_withIds {α : Type} (l : List α) :
    (withIds l).map Prod.fst = List.range' 1 l.length := by
  unfold withIds
  exact List.map_fst_zip _ _ (by simp)

theorem map_snd_withIds {α : Type} (l : List α) :
    (withIds l).map Prod.snd = l := by
  unfold withIds
  exact List.map_snd_zip _ _ (by simp)

theorem lookup_mem {α β : Type} [BEq α] [LawfulBEq α] {l : List (α × β)} {k : α} {v : β}
    (h : l.lookup k = some v) : (k, v) ∈ l := by
  induction l with
  | nil => simp at h
  | cons p l ih =>
    rw [List.lookup_cons] at h
    cases hk : k == p.1 with
    | false =>
      rw [hk] at h
      exact List.mem_cons.mpr (Or.inr (ih h))
    | true =>
      rw [hk] at h
      have hkp : k = p.1 := by simpa using hk
      have hv : p.2 = v := by simpa using h
      exact List.mem_cons.mpr (Or.inl (by rw [hkp, ← hv]))

/-- A calendar date as `pandas.to_datetime` parses the generator's ISO
`YYYY-MM-DD` strings (`load_data.py:21`). The ISO rendering used as the
date lookup key (`load_data.py:28,51,71`) is injective on dates, so the
date value itself serves as the key. -/
structure Date where
  year : ℕ
  month : ℕ
  day : ℕ
deriving DecidableEq, Repr

/-- Chronological order on dates — lexicographic on (year, month, day) —
the order `sort_values` at `load_data.py:21` sorts by. -/
def dateLE (a b : Date) : Prop :=
  a.year < b.year ∨
    (a.year = b.year ∧ (a.month < b.month ∨ (a.month = b.month ∧ a.day ≤ b.day)))

instance : DecidableRel dateLE := fun a b =>
  decidable_of_iff
    (a.year < b.year ∨
      (a.year = b.year ∧ (a.month < b.month ∨ (a.month = b.month ∧ a.day ≤ b.day))))
    Iff.rfl

instance : IsTotal Date dateLE := by
  constructor
  intro a b
  unfold dateLE
  omega

instance : IsTrans Date dateLE := by
  constructor
  intro a b c hab hbc
  unfold dateLE at *
  omega

instance : IsAntisymm Date dateLE := by
  constructor
  intro a b hab hba
  obtain ⟨y₁, m₁, d₁⟩ := a
  obtain ⟨y₂, m₂, d₂⟩ := b
  unfold dateLE at hab hba
  simp only [Date.mk.injEq]
  simp only at hab hba
  omega

/-- Embedding of `strftime("%b")` at `load_data.py:26`: the C-locale three-letter month
abbreviation. -/
def monthAbbrev : ℕ → String
  | 1 => "Jan"
  | 2 => "Feb"
  | 3 => "Mar"
  | 4 => "Apr"
  | 5 => "May"
  | 6 => "Jun"
  | 7 => "Jul"
  | 8 => "Aug"
  | 9 => "Sep"
  | 10 => "Oct"
  | 11 => "Nov"
  | 12 => "Dec"
  | _ => ""

/-- The `date_id` computation (`load_data.py:23`): `strftime("%Y%m%d")` then `astype(int)`.
For a four-digit year and month and day below 100 the integer parsed from
the concatenated digit string is exactly this linear form. -/
def date_id_of (d : Date) : ℕ :=
  d.year * 10000 + d.month * 100 + d.day

structure DateRow where
  date_id : ℕ
  order_date : Date
  year : ℕ
  month : ℕ
  month_name : String
  quarter : String
deriving DecidableEq, Repr

/-- Embedding of `create_dim_date` (`load_data.py:20-29`): deduplicate the raw dates
(`drop_duplicates`, first occurrence), sort ascending (`sort_values`), then
derive `date_id`, `year`, `month`, `month_name` (`%b`) and `quarter`
(`"Q" + str(dt.quarter)`; pandas `dt.quarter` is `(month - 1) / 3 + 1`). -/
def create_dim_date (dates : List Date) : List DateRow :=
  (List.insertionSort dateLE (dedupFirst dates)).map fun d =>
    { date_id := date_id_of d
      order_date := d
      year := d.year
      month := d.month
      month_name := monthAbbrev d.month
      quarter := "Q" ++ toString ((d.month - 1) / 3 + 1) }

/-- The order of `sort_values(["category", "product_name"])` (`load_data.py:44`): the
composite order, category first, then product name. A raw pair is stored
as (product_name, category), the source-column order. -/
def pairLE (p q : String × String) : Prop :=
  strLT p.2 q.2 ∨ (p.2 = q.2 ∧ strLE p.1 q.1)

instance : DecidableRel pairLE := fun p q =>
  decidable_of_iff (strLT p.2 q.2 ∨ (p.2 = q.2 ∧ strLE p.1 q.1)) Iff.rfl

instance : IsTotal (String × String) pairLE := by
  constructor
  intro p q
  rcases lt_trichotomy p.2.data q.2.data with h | h | h
  · exact Or.inl (Or.inl h)
  · rcases le_total p.1.data q.1.data with hle | hle
    · exact Or.inl (Or.inr ⟨String.ext h, hle⟩)
    · exact Or.inr (Or.inr ⟨(String.ext h).symm, hle⟩)
  · exact Or.inr (Or.inl h)

instance : IsTrans (String × String) pairLE := by
  constructor
  intro p q r hpq hqr
  rcases hpq with h₁ | ⟨e₁, n₁⟩
  · rcases hqr with h₂ | ⟨e₂, _⟩
    · exact Or.inl (h₁.trans h₂)
    · exact Or.inl (e₂ ▸ h₁)
  · rcases hqr with h₂ | ⟨e₂, n₂⟩
    · exact Or.inl (e₁ ▸ h₂)
    · exact Or.inr ⟨e₁.trans e₂, n₁.trans n₂⟩

instance : IsAntisymm (String × String) pairLE := by
  constructor
  intro p q hpq hqp
  rcases hpq with h₁ | ⟨e₁, n₁⟩
  · rcases hqp with h₂ | ⟨e₂, _⟩
    · exact absurd h₂ (lt_asymm h₁)
    · exact absurd (e₂ ▸ h₁) (lt_irrefl _)
  · rcases hqp with h₂ | ⟨e₂, n₂⟩
    · exact absurd (e₁ ▸ h₂) (lt_irrefl _)
    · exact Prod.ext (String.ext (le_antisymm n₁ n₂)) e₁

/-- Lines 41-46 of `load_data.py`: the distinct (product_name, category)
pairs — `DataFrame.drop_duplicates` deduplicates on the full pair, keeping
first occurrences — sorted by (category, product_name). -/
def sortedProductPairs (pairs : List (String × String)) : List (String × String) :=
  List.insertionSort pairLE (dedupFirst pairs)

/-- One raw transaction row of `data/raw/sales_transactions.csv`, the input
frame of `transform_to_star_schema`. The generator (`generate_data.py`)
fills every column of every row, so the natural-key columns are plain
strings here; `build_dimension` still implements `dropna` over optional
values. -/
structure RawRecord where
  order_id : ℕ
  order_date : Date
  region : String
  channel : String
  customer_segment : String
  category : String
  product_name : String
  units_sold : ℤ
  unit_price : ℚ
  discount_pct : ℚ
  gross_revenue : ℚ
  net_revenue : ℚ
  cost : ℚ
  profit : ℚ
deriving DecidableEq, Repr

structure ProductRow where
  product_id : ℕ
  product_name : String
  category_id : ℕ
deriving DecidableEq, Repr

structure FactRow where
  order_id : ℕ
  date_id : ℕ
  region_id : ℕ
  channel_id : ℕ
  segment_id : ℕ
  product_id : ℕ
  units_sold : ℤ
  unit_price : ℚ
  discount_pct : ℚ
  gross_revenue : ℚ
  net_revenue : ℚ
  cost : ℚ
  profit : ℚ
deriving DecidableEq, Repr

/-- The exceptions the transform can actually raise.
`intCastingNaN` is pandas' error for `.astype(int)` over a column holding
NaN (the result of a `.map` lookup miss, `load_data.py:48` and `71-74`):
its message is fixed text naming neither the missing value nor the source
column. `keyError` is Python's `KeyError` from
`product_map[(name, category)]` (`load_data.py:76`): it carries the
missing composite key and nothing else. -/
inductive PyError where
  | intCastingNaN : PyError
  | keyError (product_name : String) (category : String) : PyError
deriving DecidableEq, Repr

/-- The offending natural-key value, when the raised error reports one. -/
def PyError.reportedValue : PyError → Option (String × String)
  | .intCastingNaN => none
  | .keyError n c => some (n, c)

/-- The source column name, when the raised error reports one: neither
exception ever does. -/
def PyError.reportedColumn : PyError → Option String
  | .intCastingNaN => none
  | .keyError _ _ => none

/-- The fact assembly of `transform_to_star_schema` (`load_data.py:70-78`)
over explicit lookup tables: each scalar natural-key column is mapped
through its dictionary and cast to int (`load_data.py:71-74` — a miss
leaves NaN and the cast raises pandas' IntCastingNaN error for the whole
column), and the product key is resolved by direct dict indexing on the
composite pair (`load_data.py:75-78` — the first missing pair raises
`KeyError`). On success every surrogate key is the value its lookup
returned; the `getD` defaults are dead code guarded by the miss checks. -/
def assembleFacts (df : List RawRecord) (date_map : List (Date × ℕ))
    (region_map channel_map segment_map : List (String × ℕ))
    (product_map : List ((String × String) × ℕ)) : Except PyError (List FactRow) :=
  if df.any fun r => (date_map.lookup r.order_date).isNone then .error .intCastingNaN
  else if df.any fun r => (region_map.lookup r.region).isNone then .error .intCastingNaN
  else if df.any fun r => (channel_map.lookup r.channel).isNone then .error .intCastingNaN
  else if df.any fun r => (segment_map.lookup r.customer_segment).isNone then
    .error .intCastingNaN
  else
    match df.find? fun r => (product_map.lookup (r.product_name, r.category)).isNone with
    | some r => .error (.keyError r.product_name r.category)
    | none =>
      .ok (df.map fun r =>
        { order_id := r.order_id
          date_id := (date_map.lookup r.order_date).getD 0
          region_id := (region_map.lookup r.region).getD 0
          channel_id := (channel_map.lookup r.channel).getD 0
          segment_id := (segment_map.lookup r.customer_segment).getD 0
          product_id := (product_map.lookup (r.product_name, r.category)).getD 0
          units_sold := r.units_sold
          unit_price := r.unit_price
          discount_pct := r.discount_pct
          gross_revenue := r.gross_revenue
          net_revenue := r.net_revenue
          cost := r.cost
          profit := r.profit })

structure StarSchema where
  dim_date : List DateRow
  dim_region : List (ℕ × String)
  dim_channel : List (ℕ × String)
  dim_segment : List (ℕ × String)
  dim_category : List (ℕ × String)
  dim_product : List ProductRow
  fact_sales : List FactRow
deriving DecidableEq, Repr

/-- The `dim_date` table of `transform_to_star_schema` (`load_data.py:33`). -/
def dim_date_of (df : List RawRecord) : List DateRow :=
  create_dim_date (df.map RawRecord.order_date)

/-- The `dim_region` table (`load_data.py:34`). -/
def dim_region_of (df : List RawRecord) : List (ℕ × String) :=
  build_dimension (df.map fun r => some r.region)

/-- The `dim_channel` table (`load_data.py:35`). -/
def dim_channel_of (df : List RawRecord) : List (ℕ × String) :=
  build_dimension (df.map fun r => some r.channel)

/-- The `dim_segment` table (`load_data.py:36`). -/
def dim_segment_of (df : List RawRecord) : List (ℕ × String) :=
  build_dimension (df.map fun r => some r.customer_segment)

/-- The `dim_category` table (`load_data.py:37`). -/
def dim_category_of (df : List RawRecord) : List (ℕ × String) :=
  build_dimension (df.map fun r => some r.category)

/-- The `category_map` dictionary (`load_data.py:39`): category name to surrogate key. -/
def category_map_of (df : List RawRecord) : List (String × ℕ) :=
  (dim_category_of df).map fun d => (d.2, d.1)

/-- The deduplicated, sorted product pairs of `load_data.py:41-46`. -/
def pairs_of (df : List RawRecord) : List (String × String) :=
  sortedProductPairs (df.map fun r => (r.product_name, r.category))

/-- The `dim_product` table (`load_data.py:41-49`): sequential ids over the sorted
distinct pairs, with each category resolved through `category_map`. -/
def dim_product_of (df : List RawRecord) : List ProductRow :=
  (withIds (pairs_of df)).map fun x =>
    { product_id := x.1
      product_name := x.2.1
      category_id := ((category_map_of df).lookup x.2.2).getD 0 }

/-- The `date_map` dictionary (`load_data.py:51`), keyed by the date value (the formatted
ISO string is injective on dates). -/
def date_map_of (df : List RawRecord) : List (Date × ℕ) :=
  (dim_date_of df).map fun d => (d.order_date, d.date_id)

/-- The `region_map` dictionary (`load_data.py:52`). -/
def region_map_of (df : List RawRecord) : List (String × ℕ) :=
  (dim_region_of df).map fun d => (d.2, d.1)

/-- The `channel_map` dictionary (`load_data.py:53`). -/
def channel_map_of (df : List RawRecord) : List (String × ℕ) :=
  (dim_channel_of df).map fun d => (d.2, d.1)

/-- The `segment_map` dictionary (`load_data.py:54`). -/
def segment_map_of (df : List RawRecord) : List (String × ℕ) :=
  (dim_segment_of df).map fun d => (d.2, d.1)

/-- The `product_map` dictionary (`load_data.py:55-68`). The merge of lines 57-68 joins
the deduplicated raw pairs back to `dim_product` on
(product_name, category_name); `dim_product` holds exactly the
deduplicated raw pairs, so the merge is the map pair ↦ product_id read
directly off the sorted pair list. -/
def product_map_of (df : List RawRecord) : List ((String × String) × ℕ) :=
  (withIds (pairs_of df)).map fun x => (x.2, x.1)

/-- Embedding of `transform_to_star_schema` (`load_data.py:32-98`): build the six
dimensions and their lookup maps, resolve each product category through
`category_map` (`load_data.py:48`, `astype(int)` raises on a miss), then
assemble the fact table. -/
def transform_to_star_schema (df : List RawRecord) : Except PyError StarSchema :=
  if (pairs_of df).any fun p => (((category_map_of df).lookup p.2)).isNone then
    .error .intCastingNaN
  else
    (assembleFacts df (date_map_of df) (region_map_of df) (channel_map_of df)
        (segment_map_of df) (product_map_of df)).map
      fun fact =>
        { dim_date := dim_date_of df
          dim_region := dim_region_of df
          dim_channel := dim_channel_of df
          dim_segment := dim_segment_of df
          dim_category := dim_category_of df
          dim_product := dim_product_of df
          fact_sales := fact }

/-- Embedding of `Series.mean()` (`analyze_sales.py:88`): arithmetic mean, divisor N. -/
def popMean (xs : List ℚ) : ℚ :=
  xs.sum / xs.length

/-- Population variance, divisor N. `Series.std(ddof=0)`
(`analyze_sales.py:89`, `app.py:51`) is `Real.sqrt` of this value, and the
guard `std_value == 0` holds iff this value is `0`
(`sqrt_popVar_eq_zero_iff`). -/
def popVar (xs : List ℚ) : ℚ :=
  (xs.map fun x => (x - popMean xs) ^ 2).sum / xs.length

/-- One row of the monthly aggregate the detector consumes: the period
attributes (year/month columns in `analyze_sales.py`, the month start
timestamp in `app.py`) abstracted to one label, and the month's summed
net revenue. -/
structure MonthlyRow where
  period : ℕ
  net_revenue : ℚ
deriving DecidableEq, Repr

/-- The z-score column `detect_monthly_outliers` computes
(`analyze_sales.py:90-93`): `0.0` for every month when the population
standard deviation is zero, else `(x − mean) / std`, `std = √popVar`. -/
noncomputable def zscore_analyze (xs : List ℚ) (x : ℚ) : ℝ :=
  if popVar xs = 0 then 0
  else ((x : ℚ) - popMean xs : ℚ) / Real.sqrt ((popVar xs : ℚ) : ℝ)

/-- The z-score column `detect_outlier_months` computes (`app.py:52-55`):
the same guard and the same formula, with the mean written inline. -/
noncomputable def zscore_dashboard (xs : List ℚ) (x : ℚ) : ℝ :=
  if popVar xs = 0 then 0
  else ((x : ℚ) - popMean xs : ℚ) / Real.sqrt ((popVar xs : ℚ) : ℝ)

/-- The outlier filter `outlier_df["z_score"].abs() >= threshold`
(`analyze_sales.py:95`, `app.py:56`), decided in exact arithmetic: with
`v = popVar` and `μ = popMean`,
`|z| ≥ t ↔ t ≤ 0 ∨ (v ≠ 0 ∧ t²·v ≤ (x − μ)²)` — in the zero-variance
branch `z = 0` so only `t ≤ 0` flags, and otherwise squaring
`t·√v ≤ |x − μ|` clears the square root (`flagTest_iff_zscore`). -/
def flagTest (xs : List ℚ) (t x : ℚ) : Bool :=
  decide (t ≤ 0) ||
    (decide (popVar xs ≠ 0) && decide (t ^ 2 * popVar xs ≤ (x - popMean xs) ^ 2))

/-- The order of `sort_values("z_score", ascending=False)` (`analyze_sales.py:95-97`,
`app.py:56`): with a positive standard deviation the z-score is a strictly
increasing function of `net_revenue`, so descending z-order is descending
revenue order; in the zero-variance branch the z column is constant and
every order is descending. -/
def revDesc (a b : MonthlyRow) : Prop :=
  b.net_revenue ≤ a.net_revenue

instance : DecidableRel revDesc := fun a b =>
  decidable_of_iff (b.net_revenue ≤ a.net_revenue) Iff.rfl

instance : IsTotal MonthlyRow revDesc :=
  ⟨fun a b => le_total b.net_revenue a.net_revenue⟩

instance : IsTrans MonthlyRow revDesc :=
  ⟨fun _ _ _ hab hbc => hbc.trans hab⟩

/-- Embedding of `detect_monthly_outliers` (`analyze_sales.py:86-97`). -/
def detect_monthly_outliers (monthly : List MonthlyRow) (threshold : ℚ) : List MonthlyRow :=
  List.insertionSort revDesc
    (monthly.filter fun r =>
      flagTest (monthly.map MonthlyRow.net_revenue) threshold r.net_revenue)

/-- Embedding of `detect_outlier_months` (`app.py:49-56`), the dashboard's copy of the
detector: same guard, same z-score formula, same filter, same ordering. -/
def detect_outlier_months (monthly : List MonthlyRow) (threshold : ℚ) : List MonthlyRow :=
  List.insertionSort revDesc
    (monthly.filter fun r =>
      flagTest (monthly.map MonthlyRow.net_revenue) threshold r.net_revenue)

theorem popVar_nonneg (xs : List ℚ) : 0 ≤ popVar xs := by
  unfold popVar
  refine div_nonneg (List.sum_nonneg fun y hy => ?_) (by positivity)
  obtain ⟨x, _, rfl⟩ := List.mem_map.mp hy
  positivity

/-- The zero-std guard `std_value == 0` is exactly the zero-variance test. -/
theorem sqrt_popVar_eq_zero_iff (xs : List ℚ) :
    Real.sqrt ((popVar xs : ℚ) : ℝ) = 0 ↔ popVar xs = 0 := by
  rw [Real.sqrt_eq_zero (by exact_mod_cast popVar_nonneg xs)]
  exact_mod_cast Iff.rfl

/-- Soundness of the exact-arithmetic filter: a row passes `flagTest` iff
the absolute value of its real z-score is at least the threshold. -/
theorem flagTest_iff_zscore (xs : List ℚ) (t x : ℚ) :
    flagTest xs t x = true ↔ ((t : ℚ) : ℝ) ≤ |zscore_analyze xs x| := by
  by_cases hv : popVar xs = 0
  · rw [show zscore_analyze xs x = 0 from if_pos hv, abs_zero]
    have hcast : ((t : ℚ) : ℝ) ≤ 0 ↔ t ≤ 0 := by
      constructor
      · intro h
        exact_mod_cast h
      · intro h
        exact_mod_cast h
    rw [hcast]
    simp [flagTest, hv]
  · have hv' : 0 < popVar xs := lt_of_le_of_ne (popVar_nonneg xs) (Ne.symm hv)
    have hvR : (0 : ℝ) < ((popVar xs : ℚ) : ℝ) := by exact_mod_cast hv'
    have hs : 0 < Real.sqrt ((popVar xs : ℚ) : ℝ) := Real.sqrt_pos.mpr hvR
    have hz : |zscore_analyze xs x| =
        |((x - popMean xs : ℚ) : ℝ)| / Real.sqrt ((popVar xs : ℚ) : ℝ) := by
      rw [zscore_analyze, if_neg hv, abs_div, abs_of_nonneg (Real.sqrt_nonneg _)]
    rw [hz, le_div_iff₀ hs]
    by_cases ht : t ≤ 0
    · constructor
      · intro _
        have h0 : ((t : ℚ) : ℝ) * Real.sqrt ((popVar xs : ℚ) : ℝ) ≤ 0 :=
          mul_nonpos_of_nonpos_of_nonneg (by exact_mod_cast ht) (Real.sqrt_nonneg _)
        exact h0.trans (abs_nonneg _)
      · intro _
        simp [flagTest, ht]
    · have ht' : 0 < t := lt_of_not_ge ht
      have htR : (0 : ℝ) ≤ ((t : ℚ) : ℝ) := by exact_mod_cast ht'.le
      have hprod : 0 ≤ ((t : ℚ) : ℝ) * Real.sqrt ((popVar xs : ℚ) : ℝ) :=
        mul_nonneg htR (Real.sqrt_nonneg _)
      rw [show flagTest xs t x =
          decide (t ^ 2 * popVar xs ≤ (x - popMean xs) ^ 2) by
        simp [flagTest, ht, hv]]
      rw [decide_eq_true_eq,
        ← pow_le_pow_iff_left₀ hprod (abs_nonneg _) two_ne_zero,
        mul_pow, Real.sq_sqrt hvR.le, sq_abs,
        show (((t : ℚ) : ℝ)) ^ 2 * ((popVar xs : ℚ) : ℝ) =
          ((t ^ 2 * popVar xs : ℚ) : ℝ) by push_cast; ring,
        show (((x - popMean xs : ℚ) : ℝ)) ^ 2 =
          (((x - popMean xs) ^ 2 : ℚ) : ℝ) by push_cast; ring]
      exact Iff.symm Rat.cast_le

/-- The seven warehouse tables. The file `sql/schema.sql` is not part of
the repository; modelled from the spec: section 6 lists the tables of the
persisted warehouse schema. -/
def warehouseTables : List String :=
  ["dim_date", "dim_region", "dim_channel", "dim_customer_segment",
   "dim_category", "dim_product", "fact_sales"]

/-- A persisted SQLite database, abstracted to its committed contents:
each present table with its committed row count. -/
abbrev DBState := List (String × ℕ)

/-- One step of `load_to_sqlite` (`load_data.py:101-135`) with its commit
behaviour under Python's `sqlite3` module and pandas:
* `dropAll` and `createSchema` are the two `connection.executescript(...)`
  calls (`load_data.py:126-127`) — `executescript` implicitly commits any
  pending transaction first, and neither script opens a transaction of its
  own, so their statements are durably committed when the call returns;
* `insert` is one `DataFrame.to_sql(..., if_exists="append")` call
  (`load_data.py:129-135`) — pandas wraps one call's inserts in a
  transaction of its own and commits it before returning, rolling back
  only that call's work when it fails. -/
inductive LoadStep where
  | dropAll : LoadStep
  | createSchema : LoadStep
  | insert (table : String) (rows : ℕ) : LoadStep
deriving DecidableEq, Repr

def applyStep (db : DBState) : LoadStep → DBState
  | .dropAll => db.filter fun t => !(warehouseTables.contains t.1)
  | .createSchema => db ++ warehouseTables.map fun n => (n, 0)
  | .insert name rows => db.map fun t => if t.1 = name then (t.1, t.2 + rows) else t

/-- The step sequence of `load_to_sqlite`, parameterised by the sizes of
the seven tables being loaded: drop all warehouse tables, recreate the
schema, then append the six dimensions and the fact table in order. -/
def load_steps (nDate nRegion nChannel nSegment nCategory nProduct nFact : ℕ) :
    List LoadStep :=
  [.dropAll, .createSchema,
   .insert "dim_date" nDate, .insert "dim_region" nRegion,
   .insert "dim_channel" nChannel, .insert "dim_customer_segment" nSegment,
   .insert "dim_category" nCategory, .insert "dim_product" nProduct,
   .insert "fact_sales" nFact]

/-- Committed database after `load_to_sqlite` runs to completion. -/
def load_to_sqlite_ok (db : DBState) (steps : List LoadStep) : DBState :=
  steps.foldl applyStep db

/-- Committed database after `load_to_sqlite` raises inside step `i`
(0-based): every earlier step has already committed durably; the failing
step's own work is rolled back (pandas' per-call rollback), and the
closing rollback of the `with sqlite3.connect(...)` context manager finds
no pending transaction, so the persisted state is the fold of the
completed steps only. -/
def load_to_sqlite_failed (db : DBState) (steps : List LoadStep) (i : ℕ) : DBState :=
  (steps.take i).foldl applyStep db

/-- A calendar date with a four-digit year and in-range month and day
fields, as satisfied by every date the generator emits (2023-2025). -/
def ValidDate (d : Date) : Prop :=
  1000 ≤ d.year ∧ d.year ≤ 9999 ∧ 1 ≤ d.month ∧ d.month ≤ 12 ∧ 1 ≤ d.day ∧ d.day ≤ 31

instance : DecidablePred ValidDate := fun d =>
  decidable_of_iff
    (1000 ≤ d.year ∧ d.year ≤ 9999 ∧ 1 ≤ d.month ∧ d.month ≤ 12 ∧ 1 ≤ d.day ∧ d.day ≤ 31)
    Iff.rfl

/-- pandas `dt.quarter`, `(m - 1) / 3 + 1`, is the ceiling of `m / 3` for
calendar months. -/
theorem quarter_eq_ceil (m : ℕ) (h1 : 1 ≤ m) (h2 : m ≤ 12) :
    (m - 1) / 3 + 1 = Nat.ceil ((m : ℚ) / 3) := by
  interval_cases m <;>
    · symm
      rw [Nat.ceil_eq_iff (by norm_num)]
      constructor <;> norm_num

/-- C4. For every input column of strings, possibly holding duplicates and
missing values, `build_dimension` drops the missing values, deduplicates,
sorts ascending in case-sensitive lexicographic order, and returns exactly
one row per distinct value whose surrogate keys are exactly `1..N` in that
sorted order, with no gaps or repeats; an empty input yields an empty
table. -/
theorem build_dimension_dense_sorted_keys :
    (∀ source : List (Option String),
      ((build_dimension source).map Prod.snd).Sorted strLE ∧
      ((build_dimension source).map Prod.snd).Nodup ∧
      (∀ v, v ∈ (build_dimension source).map Prod.snd ↔ v ∈ source.filterMap id) ∧
      (build_dimension source).map Prod.fst =
        List.range' 1 (source.filterMap id).dedup.length) ∧
    build_dimension [] = [] := by
  constructor
  · intro source
    have hperm :
        List.Perm (List.insertionSort strLE (dedupFirst (source.filterMap id)))
          (dedupFirst (source.filterMap id)) :=
      List.perm_insertionSort _ _
    have hsnd : (build_dimension source).map Prod.snd =
        List.insertionSort strLE (dedupFirst (source.filterMap id)) :=
      map_snd_withIds _
    have hfst : (build_dimension source).map Prod.fst =
        List.range' 1 (List.insertionSort strLE (dedupFirst (source.filterMap id))).length :=
      map_fst_withIds _
    refine ⟨?_, ?_, ?_, ?_⟩
    · rw [hsnd]
      exact List.sorted_insertionSort _ _
    · rw [hsnd]
      exact hperm.nodup_iff.mpr nodup_dedupFirst
    · intro v
      rw [hsnd, hperm.mem_iff, mem_dedupFirst]
    · rw [hfst, hperm.length_eq, length_dedupFirst_eq_length_dedup]
  · rfl

/-- C6. The product dimension deduplicates on the full
(product_name, category) pair — the Chair example yields exactly two rows,
not one — sorts the distinct pairs by (category, product_name), and
assigns sequential product ids `1..N` over that sorted list. -/
theorem sortedProductPairs_composite_dedup :
    (∀ pairs : List (String × String),
      (sortedProductPairs pairs).Sorted pairLE ∧
      (sortedProductPairs pairs).Nodup ∧
      (∀ p, p ∈ sortedProductPairs pairs ↔ p ∈ pairs) ∧
      (withIds (sortedProductPairs pairs)).map Prod.fst =
        List.range' 1 pairs.dedup.length) ∧
    sortedProductPairs
        [("Chair", "Furniture"), ("Chair", "Furniture"), ("Chair", "Electronics")] =
      [("Chair", "Electronics"), ("Chair", "Furniture")] := by
  constructor
  · intro pairs
    have hperm : List.Perm (sortedProductPairs pairs) (dedupFirst pairs) :=
      List.perm_insertionSort _ _
    refine ⟨List.sorted_insertionSort _ _, hperm.nodup_iff.mpr nodup_dedupFirst, ?_, ?_⟩
    · intro p
      rw [hperm.mem_iff, mem_dedupFirst]
    · rw [map_fst_withIds, hperm.length_eq, length_dedupFirst_eq_length_dedup]
  · decide

/-- C5. Every date-dimension row derives `date_id` as the 8-digit integer
concatenating four-digit year, two-digit month and two-digit day — an
arithmetic function of the row's own date, not a counter — and carries
the year, the numeric month in `1..12`, the three-letter month
abbreviation, and the quarter label `"Q"` followed by `⌈month / 3⌉`. -/
theorem create_dim_date_derivations :
    ∀ dates : List Date, ∀ row ∈ create_dim_date dates, ValidDate row.order_date →
      (10000000 ≤ row.date_id ∧ row.date_id < 100000000 ∧
        row.date_id / 10000 = row.order_date.year ∧
        row.date_id / 100 % 100 = row.order_date.month ∧
        row.date_id % 100 = row.order_date.day) ∧
      row.year = row.order_date.year ∧
      row.month = row.order_date.month ∧ 1 ≤ row.month ∧ row.month ≤ 12 ∧
      row.month_name = monthAbbrev row.order_date.month ∧ row.month_name.length = 3 ∧
      row.quarter = "Q" ++ toString (Nat.ceil ((row.order_date.month : ℚ) / 3)) := by
  intro dates row hrow hvalid
  obtain ⟨d, _, rfl⟩ := List.mem_map.mp hrow
  dsimp only at hvalid ⊢
  unfold ValidDate at hvalid
  obtain ⟨hy1, hy2, hm1, hm2, hd1, hd2⟩ := hvalid
  unfold date_id_of
  refine ⟨⟨by omega, by omega, by omega, by omega, by omega⟩, rfl, rfl, hm1, hm2, rfl, ?_, ?_⟩
  · revert hm1 hm2
    generalize d.month = m
    intro hm1 hm2
    interval_cases m <;> rfl
  · rw [quarter_eq_ceil d.month hm1 hm2]

/-- Witness for C5 at the spec's example date 2024-03-07. -/
theorem create_dim_date_derivations_witness :
    ValidDate (⟨2024, 3, 7⟩ : Date) ∧
    create_dim_date [⟨2024, 3, 7⟩] = [⟨20240307, ⟨2024, 3, 7⟩, 2024, 3, "Mar", "Q1"⟩] ∧
    20240307 / 10000 = 2024 ∧ 20240307 / 100 % 100 = 3 ∧ 20240307 % 100 = 7 := by
  have h := create_dim_date_derivations [⟨2024, 3, 7⟩]
    ⟨20240307, ⟨2024, 3, 7⟩, 2024, 3, "Mar", "Q1"⟩ (by decide) (by decide)
  exact ⟨by decide, by decide, h.1.2.2.1, h.1.2.2.2.1, h.1.2.2.2.2⟩

/-- C3. When the population standard deviation of the monthly revenue
series is exactly zero (all months identical, or a single month), the
detector assigns every month a z-score of exactly `0` — the guarded branch
performs no division, so no NaN and no infinity arise — and for every
positive threshold the flagged set is empty. -/
theorem detect_monthly_outliers_zero_variance (monthly : List MonthlyRow) (t : ℚ)
    (hv : popVar (monthly.map MonthlyRow.net_revenue) = 0) :
    (∀ x : ℚ, zscore_analyze (monthly.map MonthlyRow.net_revenue) x = 0) ∧
    (0 < t → detect_monthly_outliers monthly t = []) := by
  refine ⟨fun x => if_pos hv, fun ht => ?_⟩
  have hnle : ¬t ≤ 0 := not_le.mpr ht
  rw [detect_monthly_outliers,
    List.filter_eq_nil_iff.mpr fun r _ => by simp [flagTest, hv, hnle]]
  rfl

/-- Witness for C3 at the spec's example series `[100, 100, 100, 100]`
and the default threshold `2`. -/
theorem detect_monthly_outliers_zero_variance_witness :
    popVar ([⟨1, 100⟩, ⟨2, 100⟩, ⟨3, 100⟩, ⟨4, 100⟩].map MonthlyRow.net_revenue) = 0 ∧
    ((∀ x : ℚ,
        zscore_analyze ([⟨1, 100⟩, ⟨2, 100⟩, ⟨3, 100⟩, ⟨4, 100⟩].map MonthlyRow.net_revenue) x
          = 0) ∧
      (0 < (2 : ℚ) →
        detect_monthly_outliers [⟨1, 100⟩, ⟨2, 100⟩, ⟨3, 100⟩, ⟨4, 100⟩] 2 = [])) :=
  ⟨by norm_num [popVar, popMean],
   detect_monthly_outliers_zero_variance [⟨1, 100⟩, ⟨2, 100⟩, ⟨3, 100⟩, ⟨4, 100⟩] 2
     (by norm_num [popVar, popMean])⟩

/-- C7. With nonzero population standard deviation, the z-score of each
month is revenue minus population mean divided by the population standard
deviation (divisor N), a month is flagged iff the absolute value of its
z-score is at least the threshold (inclusive boundary), and the flagged
months come back sorted by z-score descending, not by period. -/
theorem detect_monthly_outliers_flags_and_order (monthly : List MonthlyRow) (t : ℚ)
    (hv : popVar (monthly.map MonthlyRow.net_revenue) ≠ 0) :
    (∀ x : ℚ, zscore_analyze (monthly.map MonthlyRow.net_revenue) x =
        ((x - popMean (monthly.map MonthlyRow.net_revenue) : ℚ) : ℝ) /
          Real.sqrt ((popVar (monthly.map MonthlyRow.net_revenue) : ℚ) : ℝ)) ∧
    (∀ r : MonthlyRow, r ∈ detect_monthly_outliers monthly t ↔
        r ∈ monthly ∧
          ((t : ℚ) : ℝ) ≤
            |zscore_analyze (monthly.map MonthlyRow.net_revenue) r.net_revenue|) ∧
    (detect_monthly_outliers monthly t).Sorted fun a b =>
      zscore_analyze (monthly.map MonthlyRow.net_revenue) b.net_revenue ≤
        zscore_analyze (monthly.map MonthlyRow.net_revenue) a.net_revenue := by
  have hv' : 0 < popVar (monthly.map MonthlyRow.net_revenue) :=
    lt_of_le_of_ne (popVar_nonneg _) (Ne.symm hv)
  have hvR : (0 : ℝ) < ((popVar (monthly.map MonthlyRow.net_revenue) : ℚ) : ℝ) := by
    exact_mod_cast hv'
  have hs : 0 < Real.sqrt ((popVar (monthly.map MonthlyRow.net_revenue) : ℚ) : ℝ) :=
    Real.sqrt_pos.mpr hvR
  have hzdef : ∀ x : ℚ, zscore_analyze (monthly.map MonthlyRow.net_revenue) x =
      ((x - popMean (monthly.map MonthlyRow.net_revenue) : ℚ) : ℝ) /
        Real.sqrt ((popVar (monthly.map MonthlyRow.net_revenue) : ℚ) : ℝ) :=
    fun x => if_neg hv
  have hmono : ∀ a b : MonthlyRow, revDesc a b →
      zscore_analyze (monthly.map MonthlyRow.net_revenue) b.net_revenue ≤
        zscore_analyze (monthly.map MonthlyRow.net_revenue) a.net_revenue := by
    intro a b hab
    rw [hzdef, hzdef]
    have hnum : ((b.net_revenue - popMean (monthly.map MonthlyRow.net_revenue) : ℚ) : ℝ) ≤
        ((a.net_revenue - popMean (monthly.map MonthlyRow.net_revenue) : ℚ) : ℝ) := by
      exact_mod_cast sub_le_sub_right hab _
    exact div_le_div_of_nonneg_right hnum hs.le
  refine ⟨hzdef, ?_, ?_⟩
  · intro r
    rw [detect_monthly_outliers, (List.perm_insertionSort _ _).mem_iff, List.mem_filter,
      flagTest_iff_zscore]
  · exact (List.sorted_insertionSort revDesc _).imp fun h => hmono _ _ h

/-- Witness for C7 at the two-month series `[(1, 0), (2, 2)]` (variance
`1`, z-scores `∓1`) and threshold `1`. -/
theorem detect_monthly_outliers_flags_and_order_witness :
    popVar ([⟨1, 0⟩, ⟨2, 2⟩].map MonthlyRow.net_revenue) ≠ 0 ∧
    ((∀ x : ℚ, zscore_analyze ([⟨1, 0⟩, ⟨2, 2⟩].map MonthlyRow.net_revenue) x =
        ((x - popMean ([⟨1, 0⟩, ⟨2, 2⟩].map MonthlyRow.net_revenue) : ℚ) : ℝ) /
          Real.sqrt ((popVar ([⟨1, 0⟩, ⟨2, 2⟩].map MonthlyRow.net_revenue) : ℚ) : ℝ)) ∧
      (∀ r : MonthlyRow, r ∈ detect_monthly_outliers [⟨1, 0⟩, ⟨2, 2⟩] 1 ↔
          r ∈ [⟨1, 0⟩, ⟨2, 2⟩] ∧
            (((1 : ℚ) : ℚ) : ℝ) ≤
              |zscore_analyze ([⟨1, 0⟩, ⟨2, 2⟩].map MonthlyRow.net_revenue) r.net_revenue|) ∧
      (detect_monthly_outliers [⟨1, 0⟩, ⟨2, 2⟩] 1).Sorted fun a b =>
        zscore_analyze ([⟨1, 0⟩, ⟨2, 2⟩].map MonthlyRow.net_revenue) b.net_revenue ≤
          zscore_analyze ([⟨1, 0⟩, ⟨2, 2⟩].map MonthlyRow.net_revenue) a.net_revenue) :=
  ⟨by norm_num [popVar, popMean],
   detect_monthly_outliers_flags_and_order [⟨1, 0⟩, ⟨2, 2⟩] 1 (by norm_num [popVar, popMean])⟩

/-- C10. The batch-report detector (`analyze_sales.py`) and the dashboard
detector (`app.py`) are equivalent: for every monthly revenue series and
threshold they compute the same z-scores and return the same flagged
months in the same order. -/
theorem detectors_equivalent :
    (∀ (xs : List ℚ) (x : ℚ), zscore_analyze xs x = zscore_dashboard xs x) ∧
    (∀ (monthly : List MonthlyRow) (t : ℚ),
      detect_monthly_outliers monthly t = detect_outlier_months monthly t) :=
  ⟨fun _ _ => rfl, fun _ _ => rfl⟩

/-- On a successful assembly every emitted surrogate key is a value its
lookup actually returned for the row's natural key. -/
theorem assembleFacts_ok_lookups (df : List RawRecord) (date_map : List (Date × ℕ))
    (region_map channel_map segment_map : List (String × ℕ))
    (product_map : List ((String × String) × ℕ)) (out : List FactRow)
    (h : assembleFacts df date_map region_map channel_map segment_map product_map = .ok out) :
    ∀ fr ∈ out, ∃ r ∈ df,
      date_map.lookup r.order_date = some fr.date_id ∧
      region_map.lookup r.region = some fr.region_id ∧
      channel_map.lookup r.channel = some fr.channel_id ∧
      segment_map.lookup r.customer_segment = some fr.segment_id ∧
      product_map.lookup (r.product_name, r.category) = some fr.product_id := by
  rw [assembleFacts] at h
  by_cases h1 : (df.any fun r => (date_map.lookup r.order_date).isNone) = true
  · rw [if_pos h1] at h
    exact Except.noConfusion h
  rw [if_neg h1] at h
  by_cases h2 : (df.any fun r => (region_map.lookup r.region).isNone) = true
  · rw [if_pos h2] at h
    exact Except.noConfusion h
  rw [if_neg h2] at h
  by_cases h3 : (df.any fun r => (channel_map.lookup r.channel).isNone) = true
  · rw [if_pos h3] at h
    exact Except.noConfusion h
  rw [if_neg h3] at h
  by_cases h4 : (df.any fun r => (segment_map.lookup r.customer_segment).isNone) = true
  · rw [if_pos h4] at h
    exact Except.noConfusion h
  rw [if_neg h4] at h
  cases hfind : df.find? fun r => (product_map.lookup (r.product_name, r.category)).isNone with
  | some r =>
    rw [hfind] at h
    exact Except.noConfusion h
  | none =>
    rw [hfind] at h
    simp only [Except.ok.injEq] at h
    subst h
    intro fr hfr
    obtain ⟨r, hr, rfl⟩ := List.mem_map.mp hfr
    have hd : date_map.lookup r.order_date ≠ none := fun hh =>
      h1 (List.any_eq_true.mpr ⟨r, hr, by rw [hh]; rfl⟩)
    have hrg : region_map.lookup r.region ≠ none := fun hh =>
      h2 (List.any_eq_true.mpr ⟨r, hr, by rw [hh]; rfl⟩)
    have hc : channel_map.lookup r.channel ≠ none := fun hh =>
      h3 (List.any_eq_true.mpr ⟨r, hr, by rw [hh]; rfl⟩)
    have hsg : segment_map.lookup r.customer_segment ≠ none := fun hh =>
      h4 (List.any_eq_true.mpr ⟨r, hr, by rw [hh]; rfl⟩)
    have hp : product_map.lookup (r.product_name, r.category) ≠ none := fun hh => by
      have := List.find?_eq_none.mp hfind r hr
      rw [hh] at this
      exact this rfl
    obtain ⟨vd, hvd⟩ := Option.ne_none_iff_exists'.mp hd
    obtain ⟨vr, hvr⟩ := Option.ne_none_iff_exists'.mp hrg
    obtain ⟨vc, hvc⟩ := Option.ne_none_iff_exists'.mp hc
    obtain ⟨vs, hvs⟩ := Option.ne_none_iff_exists'.mp hsg
    obtain ⟨vp, hvp⟩ := Option.ne_none_iff_exists'.mp hp
    exact ⟨r, hr, by simp [hvd], by simp [hvr], by simp [hvc], by simp [hvs], by simp [hvp]⟩

/-- A lookup miss on any row and any of the five natural keys makes the
assembly return an error. -/
theorem assembleFacts_miss_error (df : List RawRecord) (date_map : List (Date × ℕ))
    (region_map channel_map segment_map : List (String × ℕ))
    (product_map : List ((String × String) × ℕ))
    (hmiss : ∃ r ∈ df,
      (date_map.lookup r.order_date).isNone ∨ (region_map.lookup r.region).isNone ∨
      (channel_map.lookup r.channel).isNone ∨ (segment_map.lookup r.customer_segment).isNone ∨
      (product_map.lookup (r.product_name, r.category)).isNone) :
    ∃ e, assembleFacts df date_map region_map channel_map segment_map product_map = .error e := by
  by_cases h1 : (df.any fun r => (date_map.lookup r.order_date).isNone) = true
  · exact ⟨.intCastingNaN, by rw [assembleFacts, if_pos h1]⟩
  by_cases h2 : (df.any fun r => (region_map.lookup r.region).isNone) = true
  · exact ⟨.intCastingNaN, by rw [assembleFacts, if_neg h1, if_pos h2]⟩
  by_cases h3 : (df.any fun r => (channel_map.lookup r.channel).isNone) = true
  · exact ⟨.intCastingNaN, by rw [assembleFacts, if_neg h1, if_neg h2, if_pos h3]⟩
  by_cases h4 : (df.any fun r => (segment_map.lookup r.customer_segment).isNone) = true
  · exact ⟨.intCastingNaN, by rw [assembleFacts, if_neg h1, if_neg h2, if_neg h3, if_pos h4]⟩
  cases hfind : df.find? fun r => (product_map.lookup (r.product_name, r.category)).isNone with
  | some r =>
    exact ⟨.keyError r.product_name r.category,
      by rw [assembleFacts, if_neg h1, if_neg h2, if_neg h3, if_neg h4, hfind]⟩
  | none =>
    exfalso
    obtain ⟨r, hr, hcase⟩ := hmiss
    rcases hcase with hh | hh | hh | hh | hh
    · exact h1 (List.any_eq_true.mpr ⟨r, hr, hh⟩)
    · exact h2 (List.any_eq_true.mpr ⟨r, hr, hh⟩)
    · exact h3 (List.any_eq_true.mpr ⟨r, hr, hh⟩)
    · exact h4 (List.any_eq_true.mpr ⟨r, hr, hh⟩)
    · exact absurd hh (List.find?_eq_none.mp hfind r hr)

/-- C1 fails as stated: assembling a raw record whose region never reached
the dimension extractor aborts with pandas' IntCastingNaN cast error,
which reports neither the offending natural value nor the column it came
from — no `ResolutionError` exists anywhere in the code. -/
theorem assembleFacts_error_reports_nothing :
    assembleFacts
        [⟨1, ⟨2024, 1, 2⟩, "West", "Online", "Consumer", "Gadgets", "Widget",
          3, 10, 0, 30, 30, 20, 10⟩]
        [(⟨2024, 1, 2⟩, 20240102)] [("East", 1)] [("Online", 1)] [("Consumer", 1)]
        [(("Widget", "Gadgets"), 1)] = .error .intCastingNaN ∧
      PyError.reportedValue .intCastingNaN = none ∧
      PyError.reportedColumn .intCastingNaN = none :=
  ⟨rfl, rfl, rfl⟩

/-- C1, amended. A raw record whose natural key misses its lookup always
aborts the assembly with a raised error — pandas' IntCastingNaN error
(no payload) for the four scalar keys, Python's KeyError (carrying the
missing pair) for the product — and the assembler never emits a fact row
with a null or default foreign key in place of an unresolved one: on
success, every surrogate key is a value its lookup returned. -/
theorem assembleFacts_fail_fast_no_defaults (df : List RawRecord)
    (date_map : List (Date × ℕ)) (region_map channel_map segment_map : List (String × ℕ))
    (product_map : List ((String × String) × ℕ)) :
    ((∃ r ∈ df,
        (date_map.lookup r.order_date).isNone ∨ (region_map.lookup r.region).isNone ∨
        (channel_map.lookup r.channel).isNone ∨
        (segment_map.lookup r.customer_segment).isNone ∨
        (product_map.lookup (r.product_name, r.category)).isNone) →
      ∃ e, assembleFacts df date_map region_map channel_map segment_map product_map =
        .error e) ∧
    (∀ out,
      assembleFacts df date_map region_map channel_map segment_map product_map = .ok out →
      ∀ fr ∈ out, ∃ r ∈ df,
        date_map.lookup r.order_date = some fr.date_id ∧
        region_map.lookup r.region = some fr.region_id ∧
        channel_map.lookup r.channel = some fr.channel_id ∧
        segment_map.lookup r.customer_segment = some fr.segment_id ∧
        product_map.lookup (r.product_name, r.category) = some fr.product_id) :=
  ⟨assembleFacts_miss_error df date_map region_map channel_map segment_map product_map,
   fun out h =>
     assembleFacts_ok_lookups df date_map region_map channel_map segment_map product_map out h⟩

/-- Witness for the amended C1: the record with the unseen region "West"
satisfies the miss hypothesis, and the assembly errors. -/
theorem assembleFacts_fail_fast_no_defaults_witness :
    (∃ r ∈ [(⟨1, ⟨2024, 1, 2⟩, "West", "Online", "Consumer", "Gadgets", "Widget",
        3, 10, 0, 30, 30, 20, 10⟩ : RawRecord)],
      ((([(⟨2024, 1, 2⟩, 20240102)] : List (Date × ℕ)).lookup r.order_date).isNone ∨
        (([("East", 1)] : List (String × ℕ)).lookup r.region).isNone ∨
        (([("Online", 1)] : List (String × ℕ)).lookup r.channel).isNone ∨
        (([("Consumer", 1)] : List (String × ℕ)).lookup r.customer_segment).isNone ∨
        (([(("Widget", "Gadgets"), 1)] : List ((String × String) × ℕ)).lookup
            (r.product_name, r.category)).isNone)) ∧
    (∃ e, assembleFacts
        [⟨1, ⟨2024, 1, 2⟩, "West", "Online", "Consumer", "Gadgets", "Widget",
          3, 10, 0, 30, 30, 20, 10⟩]
        [(⟨2024, 1, 2⟩, 20240102)] [("East", 1)] [("Online", 1)] [("Consumer", 1)]
        [(("Widget", "Gadgets"), 1)] = .error e) :=
  ⟨by decide,
   (assembleFacts_fail_fast_no_defaults
      [⟨1, ⟨2024, 1, 2⟩, "West", "Online", "Consumer", "Gadgets", "Widget",
        3, 10, 0, 30, 30, 20, 10⟩]
      [(⟨2024, 1, 2⟩, 20240102)] [("East", 1)] [("Online", 1)] [("Consumer", 1)]
      [(("Widget", "Gadgets"), 1)]).1 (by decide)⟩

theorem except_map_eq_ok {ε α β : Type} {f : α → β} {x : Except ε α} {b : β}
    (h : x.map f = .ok b) : ∃ a, x = .ok a ∧ b = f a := by
  cases x with
  | error e => exact Except.noConfusion h
  | ok a =>
    refine ⟨a, rfl, ?_⟩
    simpa [Except.map] using h.symm

/-- C8. When the transform succeeds on a raw frame, every foreign key of
every assembled fact row references an existing row of the corresponding
dimension table built from the same frame (referential closure of the
output warehouse). -/
theorem transform_referential_closure (df : List RawRecord) (s : StarSchema)
    (h : transform_to_star_schema df = .ok s) :
    ∀ fr ∈ s.fact_sales,
      (∃ drow ∈ s.dim_date, drow.date_id = fr.date_id) ∧
      (∃ rrow ∈ s.dim_region, rrow.1 = fr.region_id) ∧
      (∃ crow ∈ s.dim_channel, crow.1 = fr.channel_id) ∧
      (∃ srow ∈ s.dim_segment, srow.1 = fr.segment_id) ∧
      (∃ prow ∈ s.dim_product, prow.product_id = fr.product_id) := by
  rw [transform_to_star_schema] at h
  split at h
  · exact Except.noConfusion h
  · obtain ⟨fact, hasm, rfl⟩ := except_map_eq_ok h
    intro fr hfr
    obtain ⟨r, hr, hd, hrg, hc, hsg, hp⟩ :=
      assembleFacts_ok_lookups df _ _ _ _ _ fact hasm fr hfr
    refine ⟨?_, ?_, ?_, ?_, ?_⟩
    · obtain ⟨drow, hdrow, heq⟩ := List.mem_map.mp (lookup_mem hd)
      exact ⟨drow, hdrow, by simpa using congrArg Prod.snd heq⟩
    · obtain ⟨rrow, hrrow, heq⟩ := List.mem_map.mp (lookup_mem hrg)
      exact ⟨rrow, hrrow, by simpa using congrArg Prod.snd heq⟩
    · obtain ⟨crow, hcrow, heq⟩ := List.mem_map.mp (lookup_mem hc)
      exact ⟨crow, hcrow, by simpa using congrArg Prod.snd heq⟩
    · obtain ⟨srow, hsrow, heq⟩ := List.mem_map.mp (lookup_mem hsg)
      exact ⟨srow, hsrow, by simpa using congrArg Prod.snd heq⟩
    · obtain ⟨x, hx, heq⟩ := List.mem_map.mp (lookup_mem hp)
      refine ⟨ProductRow.mk x.1 x.2.1 (((category_map_of df).lookup x.2.2).getD 0), ?_, ?_⟩
      · exact List.mem_map_of_mem _ hx
      · simpa using congrArg Prod.snd heq

/-- Witness for C8: the transform of a one-record frame succeeds and its
fact row's five keys each reference a dimension row. -/
theorem transform_referential_closure_witness :
    transform_to_star_schema
        [⟨1, ⟨2024, 1, 2⟩, "East", "Online", "Consumer", "Gadgets", "Widget",
          3, 10, 0, 30, 30, 20, 10⟩] =
      .ok
        { dim_date := [⟨20240102, ⟨2024, 1, 2⟩, 2024, 1, "Jan", "Q1"⟩]
          dim_region := [(1, "East")]
          dim_channel := [(1, "Online")]
          dim_segment := [(1, "Consumer")]
          dim_category := [(1, "Gadgets")]
          dim_product := [⟨1, "Widget", 1⟩]
          fact_sales := [⟨1, 20240102, 1, 1, 1, 1, 3, 10, 0, 30, 30, 20, 10⟩] } ∧
    (∀ fr ∈ (StarSchema.mk [⟨20240102, ⟨2024, 1, 2⟩, 2024, 1, "Jan", "Q1"⟩]
        [(1, "East")] [(1, "Online")] [(1, "Consumer")] [(1, "Gadgets")]
        [⟨1, "Widget", 1⟩]
        [⟨1, 20240102, 1, 1, 1, 1, 3, 10, 0, 30, 30, 20, 10⟩]).fact_sales,
      (∃ drow ∈ (StarSchema.mk [⟨20240102, ⟨2024, 1, 2⟩, 2024, 1, "Jan", "Q1"⟩]
          [(1, "East")] [(1, "Online")] [(1, "Consumer")] [(1, "Gadgets")]
          [⟨1, "Widget", 1⟩]
          [⟨1, 20240102, 1, 1, 1, 1, 3, 10, 0, 30, 30, 20, 10⟩]).dim_date,
        drow.date_id = fr.date_id) ∧
      (∃ rrow ∈ (StarSchema.mk [⟨20240102, ⟨2024, 1, 2⟩, 2024, 1, "Jan", "Q1"⟩]
          [(1, "East")] [(1, "Online")] [(1, "Consumer")] [(1, "Gadgets")]
          [⟨1, "Widget", 1⟩]
          [⟨1, 20240102, 1, 1, 1, 1, 3, 10, 0, 30, 30, 20, 10⟩]).dim_region,
        rrow.1 = fr.region_id) ∧
      (∃ crow ∈ (StarSchema.mk [⟨20240102, ⟨2024, 1, 2⟩, 2024, 1, "Jan", "Q1"⟩]
          [(1, "East")] [(1, "Online")] [(1, "Consumer")] [(1, "Gadgets")]
          [⟨1, "Widget", 1⟩]
          [⟨1, 20240102, 1, 1, 1, 1, 3, 10, 0, 30, 30, 20, 10⟩]).dim_channel,
        crow.1 = fr.channel_id) ∧
      (∃ srow ∈ (StarSchema.mk [⟨20240102, ⟨2024, 1, 2⟩, 2024, 1, "Jan", "Q1"⟩]
          [(1, "East")] [(1, "Online")] [(1, "Consumer")] [(1, "Gadgets")]
          [⟨1, "Widget", 1⟩]
          [⟨1, 20240102, 1, 1, 1, 1, 3, 10, 0, 30, 30, 20, 10⟩]).dim_segment,
        srow.1 = fr.segment_id) ∧
      (∃ prow ∈ (StarSchema.mk [⟨20240102, ⟨2024, 1, 2⟩, 2024, 1, "Jan", "Q1"⟩]
          [(1, "East")] [(1, "Online")] [(1, "Consumer")] [(1, "Gadgets")]
          [⟨1, "Widget", 1⟩]
          [⟨1, 20240102, 1, 1, 1, 1, 3, 10, 0, 30, 30, 20, 10⟩]).dim_product,
        prow.product_id = fr.product_id)) :=
  ⟨rfl,
   transform_referential_closure
     [⟨1, ⟨2024, 1, 2⟩, "East", "Online", "Consumer", "Gadgets", "Widget",
       3, 10, 0, 30, 30, 20, 10⟩] _ rfl⟩

/-- C9. The transform is a pure function of the raw frame: running the
build twice on identical, unchanged input produces identical dimension
tables, identical surrogate-key assignments and an identical fact table.
The dimension tables are moreover insensitive to the order the raw rows
arrive in — sort-then-enumerate assignment depends only on which natural
values occur, not on encounter order. -/
theorem transform_deterministic :
    (∀ df : List RawRecord, transform_to_star_schema df = transform_to_star_schema df) ∧
    (∀ df₁ df₂ : List RawRecord, List.Perm df₁ df₂ →
      dim_date_of df₁ = dim_date_of df₂ ∧
      dim_region_of df₁ = dim_region_of df₂ ∧
      dim_channel_of df₁ = dim_channel_of df₂ ∧
      dim_segment_of df₁ = dim_segment_of df₂ ∧
      dim_category_of df₁ = dim_category_of df₂ ∧
      dim_product_of df₁ = dim_product_of df₂) := by
  refine ⟨fun _ => rfl, fun df₁ df₂ hperm => ?_⟩
  have hdims : ∀ f : RawRecord → Option String,
      build_dimension (df₁.map f) = build_dimension (df₂.map f) := by
    intro f
    unfold build_dimension
    rw [insertionSort_eq_of_perm (dedupFirst_perm_of_perm ((hperm.map f).filterMap id))]
  have hdate : dim_date_of df₁ = dim_date_of df₂ := by
    unfold dim_date_of create_dim_date
    rw [insertionSort_eq_of_perm
      (dedupFirst_perm_of_perm (hperm.map RawRecord.order_date))]
  have hpairs : pairs_of df₁ = pairs_of df₂ := by
    unfold pairs_of sortedProductPairs
    rw [insertionSort_eq_of_perm
      (dedupFirst_perm_of_perm (hperm.map fun r => (r.product_name, r.category)))]
  have hcat : dim_category_of df₁ = dim_category_of df₂ := hdims _
  refine ⟨hdate, hdims _, hdims _, hdims _, hcat, ?_⟩
  unfold dim_product_of category_map_of
  rw [hpairs, hcat]

/-- Witness for C9: the same two records in swapped order build the same
dimension tables. -/
theorem transform_deterministic_witness :
    List.Perm
        [(⟨1, ⟨2024, 1, 2⟩, "East", "Online", "Consumer", "Gadgets", "Widget",
            3, 10, 0, 30, 30, 20, 10⟩ : RawRecord),
          ⟨2, ⟨2024, 1, 3⟩, "West", "Retail", "Corporate", "Apparel", "Jacket",
            1, 5, 0, 5, 5, 3, 2⟩]
        [⟨2, ⟨2024, 1, 3⟩, "West", "Retail", "Corporate", "Apparel", "Jacket",
            1, 5, 0, 5, 5, 3, 2⟩,
          ⟨1, ⟨2024, 1, 2⟩, "East", "Online", "Consumer", "Gadgets", "Widget",
            3, 10, 0, 30, 30, 20, 10⟩] ∧
    (dim_date_of
        [⟨1, ⟨2024, 1, 2⟩, "East", "Online", "Consumer", "Gadgets", "Widget",
            3, 10, 0, 30, 30, 20, 10⟩,
          ⟨2, ⟨2024, 1, 3⟩, "West", "Retail", "Corporate", "Apparel", "Jacket",
            1, 5, 0, 5, 5, 3, 2⟩] =
      dim_date_of
        [⟨2, ⟨2024, 1, 3⟩, "West", "Retail", "Corporate", "Apparel", "Jacket",
            1, 5, 0, 5, 5, 3, 2⟩,
          ⟨1, ⟨2024, 1, 2⟩, "East", "Online", "Consumer", "Gadgets", "Widget",
            3, 10, 0, 30, 30, 20, 10⟩] ∧
      dim_region_of
        [⟨1, ⟨2024, 1, 2⟩, "East", "Online", "Consumer", "Gadgets", "Widget",
            3, 10, 0, 30, 30, 20, 10⟩,
          ⟨2, ⟨2024, 1, 3⟩, "West", "Retail", "Corporate", "Apparel", "Jacket",
            1, 5, 0, 5, 5, 3, 2⟩] =
      dim_region_of
        [⟨2, ⟨2024, 1, 3⟩, "West", "Retail", "Corporate", "Apparel", "Jacket",
            1, 5, 0, 5, 5, 3, 2⟩,
          ⟨1, ⟨2024, 1, 2⟩, "East", "Online", "Consumer", "Gadgets", "Widget",
            3, 10, 0, 30, 30, 20, 10⟩] ∧
      dim_channel_of
        [⟨1, ⟨2024, 1, 2⟩, "East", "Online", "Consumer", "Gadgets", "Widget",
            3, 10, 0, 30, 30, 20, 10⟩,
          ⟨2, ⟨2024, 1, 3⟩, "West", "Retail", "Corporate", "Apparel", "Jacket",
            1, 5, 0, 5, 5, 3, 2⟩] =
      dim_channel_of
        [⟨2, ⟨2024, 1, 3⟩, "West", "Retail", "Corporate", "Apparel", "Jacket",
            1, 5, 0, 5, 5, 3, 2⟩,
          ⟨1, ⟨2024, 1, 2⟩, "East", "Online", "Consumer", "Gadgets", "Widget",
            3, 10, 0, 30, 30, 20, 10⟩] ∧
      dim_segment_of
        [⟨1, ⟨2024, 1, 2⟩, "East", "Online", "Consumer", "Gadgets", "Widget",
            3, 10, 0, 30, 30, 20, 10⟩,
          ⟨2, ⟨2024, 1, 3⟩, "West", "Retail", "Corporate", "Apparel", "Jacket",
            1, 5, 0, 5, 5, 3, 2⟩] =
      dim_segment_of
        [⟨2, ⟨2024, 1, 3⟩, "West", "Retail", "Corporate", "Apparel", "Jacket",
            1, 5, 0, 5, 5, 3, 2⟩,
          ⟨1, ⟨2024, 1, 2⟩, "East", "Online", "Consumer", "Gadgets", "Widget",
            3, 10, 0, 30, 30, 20, 10⟩] ∧
      dim_category_of
        [⟨1, ⟨2024, 1, 2⟩, "East", "Online", "Consumer", "Gadgets", "Widget",
            3, 10, 0, 30, 30, 20, 10⟩,
          ⟨2, ⟨2024, 1, 3⟩, "West", "Retail", "Corporate", "Apparel", "Jacket",
            1, 5, 0, 5, 5, 3, 2⟩] =
      dim_category_of
        [⟨2, ⟨2024, 1, 3⟩, "West", "Retail", "Corporate", "Apparel", "Jacket",
            1, 5, 0, 5, 5, 3, 2⟩,
          ⟨1, ⟨2024, 1, 2⟩, "East", "Online", "Consumer", "Gadgets", "Widget",
            3, 10, 0, 30, 30, 20, 10⟩] ∧
      dim_product_of
        [⟨1, ⟨2024, 1, 2⟩, "East", "Online", "Consumer", "Gadgets", "Widget",
            3, 10, 0, 30, 30, 20, 10⟩,
          ⟨2, ⟨2024, 1, 3⟩, "West", "Retail", "Corporate", "Apparel", "Jacket",
            1, 5, 0, 5, 5, 3, 2⟩] =
      dim_product_of
        [⟨2, ⟨2024, 1, 3⟩, "West", "Retail", "Corporate", "Apparel", "Jacket",
            1, 5, 0, 5, 5, 3, 2⟩,
          ⟨1, ⟨2024, 1, 2⟩, "East", "Online", "Consumer", "Gadgets", "Widget",
            3, 10, 0, 30, 30, 20, 10⟩]) :=
  ⟨List.Perm.swap _ _ _,
   transform_deterministic.2 _ _ (List.Perm.swap _ _ _)⟩

/-- C2 fails on the code, though the spec's atomicity requirement is the
stated intent: the two `executescript` calls and each of the seven
`to_sql` calls commit separately, so when the final `fact_sales` insert
raises — after the drops, the schema rebuild and the six dimension
inserts have each committed — the persisted warehouse keeps the fresh
dimensions with an empty fact table; the prior contents (here a five-row
fact table) are gone and the closing rollback has nothing to undo. -/
theorem load_to_sqlite_not_atomic :
    load_to_sqlite_failed
        [("dim_date", 2), ("dim_region", 1), ("dim_channel", 1),
         ("dim_customer_segment", 1), ("dim_category", 1), ("dim_product", 1),
         ("fact_sales", 5)]
        (load_steps 2 1 1 1 1 1 5) 8 =
      [("dim_date", 2), ("dim_region", 1), ("dim_channel", 1),
       ("dim_customer_segment", 1), ("dim_category", 1), ("dim_product", 1),
       ("fact_sales", 0)] ∧
    load_to_sqlite_failed
        [("dim_date", 2), ("dim_region", 1), ("dim_channel", 1),
         ("dim_customer_segment", 1), ("dim_category", 1), ("dim_product", 1),
         ("fact_sales", 5)]
        (load_steps 2 1 1 1 1 1 5) 8 ≠
      [("dim_date", 2), ("dim_region", 1), ("dim_channel", 1),
       ("dim_customer_segment", 1), ("dim_category", 1), ("dim_product", 1),
       ("fact_sales", 5)] :=
  ⟨rfl, by decide⟩

end SalesDashboard
